import Mathlib

/-!
Verification of the scenario execution engine implicit in the
`testsprite_tests` scripts.  All seventeen scripts share a byte-identical
skeleton: `run_test` initialises the handles `pw`, `browser`, `context` to
`None`, acquires them in that order inside a `try` block, navigates, runs a
linear sequence of locate/act statements, evaluates a terminal visibility
assertion, and releases the handles in a `finally` block guarded by
`if context: / if browser: / if pw:`.  The definitions below are a shallow
embedding of that skeleton and of the per-script step data.
-/

namespace JobmatchTests

/-- The three handles a scenario run acquires, in acquisition order:
the top-level driver (`pw`, from `async_playwright().start()`), the
browser process (`pw.chromium.launch(...)`), and the isolated browsing
context (`browser.new_context()`). -/
inductive Handle where
  | driver
  | browser
  | context
deriving DecidableEq

/-- Observable events of one scenario run: handle acquisitions, the
swallowed `wait_for_load_state` probes after navigation, releases that
return normally, and releases that raise. -/
inductive Event where
  | acquire (h : Handle)
  | loadProbe (ok : Bool)
  | release (h : Handle)
  | releaseError (h : Handle)
deriving DecidableEq

/-- Outcome of the `try` body of `run_test` before the `finally` block
runs: completed normally, failed to acquire a handle (the handle named is
the one whose acquisition call raised), or raised during
navigation/steps/assertion. -/
inductive BodyOutcome where
  | ok
  | envError (h : Handle)
  | raised
deriving DecidableEq

/-- Final outcome of `run_test`.  Python semantics: an exception raised
inside the `finally` block replaces any in-flight exception, so a
teardown error becomes the outcome of the run. -/
inductive RunOutcome where
  | passed
  | envError (h : Handle)
  | bodyRaised
  | teardownError (h : Handle)
deriving DecidableEq

/-- One guarded close statement of the `finally` block
(`if context: await context.close()` and its two siblings): skipped when
the handle was never acquired, otherwise it either returns or raises. -/
def closeOne (has ok : Bool) (h : Handle) : List Event × Bool :=
  if has then
    if ok then ([Event.release h], false) else ([Event.releaseError h], true)
  else ([], false)

/-- The `finally` block shared by every script:
`if context: await context.close(); if browser: await browser.close();
if pw: await pw.stop()`.  The three closes run in sequence with no inner
`try`, so an exception raised by one close aborts the rest of the block
and propagates (returned as `some h`). -/
def teardown (hasContext hasBrowser hasDriver ccOk cbOk sdOk : Bool) :
    List Event × Option Handle :=
  match closeOne hasContext ccOk Handle.context with
  | (ec, true) => (ec, some Handle.context)
  | (ec, false) =>
    match closeOne hasBrowser cbOk Handle.browser with
    | (eb, true) => (ec ++ eb, some Handle.browser)
    | (eb, false) =>
      match closeOne hasDriver sdOk Handle.driver with
      | (ed, raised) =>
        (ec ++ eb ++ ed, if raised then some Handle.driver else none)

/-- The `try` body of `run_test`: acquire driver, browser, context in
order (an acquisition that raises leaves its own and all later handles
unassigned, i.e. `None`), then run the post-navigation load-state probes
(whose `async_api.Error` failures are swallowed by
`try/except ...: pass`), then the steps and terminal assertion,
abstracted as `bodyOk`.  Returns the event trace, which handles were
acquired (driver, browser, context), and the body outcome. -/
def runBody (startOk launchOk newContextOk bodyOk : Bool)
    (loadProbes : List Bool) :
    List Event × (Bool × Bool × Bool) × BodyOutcome :=
  if startOk then
    if launchOk then
      if newContextOk then
        ([Event.acquire Handle.driver, Event.acquire Handle.browser,
          Event.acquire Handle.context] ++ loadProbes.map Event.loadProbe,
         (true, true, true),
         if bodyOk then BodyOutcome.ok else BodyOutcome.raised)
      else
        ([Event.acquire Handle.driver, Event.acquire Handle.browser],
         (true, true, false), BodyOutcome.envError Handle.context)
    else
      ([Event.acquire Handle.driver], (true, false, false),
       BodyOutcome.envError Handle.browser)
  else
    ([], (false, false, false), BodyOutcome.envError Handle.driver)

/-- One full `run_test` invocation: the `try` body followed
unconditionally by the `finally` block, which closes exactly the handles
that are not `None`.  A teardown error replaces the body outcome, exactly
as a Python exception raised in `finally` replaces the in-flight one. -/
def runTest (startOk launchOk newContextOk bodyOk ccOk cbOk sdOk : Bool)
    (loadProbes : List Bool) : List Event × RunOutcome :=
  match runBody startOk launchOk newContextOk bodyOk loadProbes with
  | (btr, (hasDriver, hasBrowser, hasContext), bout) =>
    match teardown hasContext hasBrowser hasDriver ccOk cbOk sdOk with
    | (ttr, terr) =>
      (btr ++ ttr,
       match terr with
       | some h => RunOutcome.teardownError h
       | none =>
         match bout with
         | BodyOutcome.ok => RunOutcome.passed
         | BodyOutcome.envError h => RunOutcome.envError h
         | BodyOutcome.raised => RunOutcome.bodyRaised)

/-- Handles released successfully, in trace order. -/
def releases : List Event → List Handle
  | [] => []
  | Event.release h :: tr => h :: releases tr
  | _ :: tr => releases tr

/-- Handles acquired, in trace order. -/
def acquires : List Event → List Handle
  | [] => []
  | Event.acquire h :: tr => h :: acquires tr
  | _ :: tr => acquires tr

/-- Handles on which a close was attempted (whether it returned or
raised), in trace order. -/
def releaseAttempts : List Event → List Handle
  | [] => []
  | Event.release h :: tr => h :: releaseAttempts tr
  | Event.releaseError h :: tr => h :: releaseAttempts tr
  | _ :: tr => releaseAttempts tr

/-- Outcomes of the load-state probes recorded in a trace. -/
def probeRecord : List Event → List Bool
  | [] => []
  | Event.loadProbe ok :: tr => ok :: probeRecord tr
  | _ :: tr => probeRecord tr

theorem releases_append (a b : List Event) :
    releases (a ++ b) = releases a ++ releases b := by
  induction a with
  | nil => rfl
  | cons e a ih => cases e <;> simp [releases, ih]

theorem acquires_append (a b : List Event) :
    acquires (a ++ b) = acquires a ++ acquires b := by
  induction a with
  | nil => rfl
  | cons e a ih => cases e <;> simp [acquires, ih]

theorem releaseAttempts_append (a b : List Event) :
    releaseAttempts (a ++ b) = releaseAttempts a ++ releaseAttempts b := by
  induction a with
  | nil => rfl
  | cons e a ih => cases e <;> simp [releaseAttempts, ih]

theorem probeRecord_append (a b : List Event) :
    probeRecord (a ++ b) = probeRecord a ++ probeRecord b := by
  induction a with
  | nil => rfl
  | cons e a ih => cases e <;> simp [probeRecord, ih]

theorem releases_probes (ps : List Bool) :
    releases (ps.map Event.loadProbe) = [] := by
  induction ps with
  | nil => rfl
  | cons p ps ih => simp [releases, ih]

theorem acquires_probes (ps : List Bool) :
    acquires (ps.map Event.loadProbe) = [] := by
  induction ps with
  | nil => rfl
  | cons p ps ih => simp [acquires, ih]

theorem releaseAttempts_probes (ps : List Bool) :
    releaseAttempts (ps.map Event.loadProbe) = [] := by
  induction ps with
  | nil => rfl
  | cons p ps ih => simp [releaseAttempts, ih]

theorem probeRecord_probes (ps : List Bool) :
    probeRecord (ps.map Event.loadProbe) = ps := by
  induction ps with
  | nil => rfl
  | cons p ps ih => simp [probeRecord, ih]

/-- C1: for every scenario run — whether the driver, browser, or context
failed to start, and whether the step/assertion body passed or raised —
the `finally` teardown runs exactly once: with the closes behaving
normally, the sequence of released handles is exactly the reverse of the
sequence of acquired handles (context, browser, driver in reverse order
of acquisition), and for any close behaviour no handle is ever closed
more often than it was opened. -/
theorem session_teardown_exactly_once
    (startOk launchOk newContextOk bodyOk : Bool) (loadProbes : List Bool) :
    (releases (runTest startOk launchOk newContextOk bodyOk
        true true true loadProbes).1 =
      (acquires (runTest startOk launchOk newContextOk bodyOk
        true true true loadProbes).1).reverse) ∧
    (∀ ccOk cbOk sdOk : Bool, ∀ h : Handle,
      (releaseAttempts (runTest startOk launchOk newContextOk bodyOk
          ccOk cbOk sdOk loadProbes).1).count h ≤
        (acquires (runTest startOk launchOk newContextOk bodyOk
          ccOk cbOk sdOk loadProbes).1).count h) := by
  constructor
  · cases startOk <;> cases launchOk <;> cases newContextOk <;> cases bodyOk <;>
      simp [runTest, runBody, teardown, closeOne, releases_append,
        acquires_append, releases_probes, acquires_probes, releases, acquires]
  · intro ccOk cbOk sdOk h
    cases startOk <;> cases launchOk <;> cases newContextOk <;> cases bodyOk <;>
      cases ccOk <;> cases cbOk <;> cases sdOk <;> cases h <;>
        simp [runTest, runBody, teardown, closeOne, releaseAttempts_append,
          acquires_append, releaseAttempts_probes, acquires_probes,
          releaseAttempts, acquires]

/-- C2 counterexample: in a run whose scenario body passed but whose
`context.close()` raises, the teardown error is not swallowed: the run's
outcome becomes the teardown error (masking the primary pass result) and
no handle is released — `browser.close()` and `pw.stop()` are never
reached. -/
theorem close_error_masks_result :
    (runTest true true true true false true true []).2 =
      RunOutcome.teardownError Handle.context ∧
    releases (runTest true true true true false true true []).1 = [] ∧
    releaseAttempts (runTest true true true true false true true []).1 =
      [Handle.context] := by
  decide

/-- C2 amended: the `finally` block does not guard the individual closes,
so an error raised while closing the context propagates out of
`run_test`: for every body outcome it replaces the scenario's primary
result with the teardown error, and the close of the browser and the stop
of the driver are skipped — only the context close is ever attempted. -/
theorem teardown_error_propagates_and_masks
    (bodyOk cbOk sdOk : Bool) (loadProbes : List Bool) :
    (runTest true true true bodyOk false cbOk sdOk loadProbes).2 =
      RunOutcome.teardownError Handle.context ∧
    releases (runTest true true true bodyOk false cbOk sdOk loadProbes).1 =
      [] ∧
    releaseAttempts (runTest true true true bodyOk false cbOk sdOk
      loadProbes).1 = [Handle.context] := by
  cases bodyOk <;> cases cbOk <;> cases sdOk <;>
    simp [runTest, runBody, teardown, closeOne, releases_append,
      releaseAttempts_append, releases_probes, releaseAttempts_probes,
      releases, releaseAttempts]

/-- C9: the teardown never touches a handle that was not acquired — every
handle on which a close is attempted appears among the acquired handles,
for every combination of startup failure point, body outcome, and close
behaviour.  In particular, when the browser fails to launch, no close of
the browser or the context is attempted. -/
theorem close_only_acquired_handles
    (startOk launchOk newContextOk bodyOk ccOk cbOk sdOk : Bool)
    (loadProbes : List Bool) (h : Handle)
    (hmem : h ∈ releaseAttempts (runTest startOk launchOk newContextOk
      bodyOk ccOk cbOk sdOk loadProbes).1) :
    h ∈ acquires (runTest startOk launchOk newContextOk bodyOk
      ccOk cbOk sdOk loadProbes).1 := by
  cases startOk <;> cases launchOk <;> cases newContextOk <;> cases bodyOk <;>
    cases ccOk <;> cases cbOk <;> cases sdOk <;> cases h <;>
      simp_all [runTest, runBody, teardown, closeOne, releaseAttempts_append,
        acquires_append, releaseAttempts_probes, acquires_probes,
        releaseAttempts, acquires]

/-- C9 witness: in a fully successful run the context close is attempted,
and the theorem yields that the context was indeed acquired. -/
theorem close_only_acquired_handles_witness :
    Handle.context ∈ acquires (runTest true true true true true true true
      []).1 :=
  close_only_acquired_handles true true true true true true true []
    Handle.context (by decide)

/-- C10: the post-navigation load-state probes cannot fail a run — the
outcome of `run_test` is the same for any two sequences of probe
outcomes, while the trace still records every probe that was attempted
(its error is swallowed, not skipped). -/
theorem load_probe_failures_never_fail_run
    (startOk launchOk newContextOk bodyOk ccOk cbOk sdOk : Bool)
    (p q : List Bool) :
    (runTest startOk launchOk newContextOk bodyOk ccOk cbOk sdOk p).2 =
      (runTest startOk launchOk newContextOk bodyOk ccOk cbOk sdOk q).2 ∧
    probeRecord (runTest true true true bodyOk ccOk cbOk sdOk p).1 = p := by
  constructor
  · cases startOk <;> cases launchOk <;> cases newContextOk <;>
      cases bodyOk <;> cases ccOk <;> cases cbOk <;> cases sdOk <;>
        simp [runTest, runBody, teardown, closeOne]
  · cases bodyOk <;> cases ccOk <;> cases cbOk <;> cases sdOk <;>
      simp [runTest, runBody, teardown, closeOne, probeRecord_append,
        probeRecord_probes, probeRecord]

/-- How a statement group of a script addresses the page: `lastPage` is
`frame = context.pages[-1]`, re-read at the statement; `lastPageChain` is
`context.pages[-1].frame_locator(sel1).frame_locator(sel2)...` with a
literal chain of frame selectors; `cachedPage` is the `page` variable
bound once at session start by `context.new_page()`; `noPage` marks
statements that touch no page at all (`asyncio.sleep`). -/
inductive PageRef where
  | lastPage
  | lastPageChain (chain : List String)
  | cachedPage
  | noPage
deriving DecidableEq

/-- One scenario action as written in the scripts: `elem.fill(value)` on
`frame.locator(xpath).nth(idx)`, `elem.click(timeout=...)`,
`page.goto(url, timeout=...)`, `asyncio.sleep(seconds)`, or the terminal
assertion block `expect(frame.locator(text).first).to_be_visible(timeout)`
over a list of expected texts. -/
inductive Action where
  | fill (xpath : String) (idx : Nat) (value : String)
  | click (xpath : String) (idx : Nat) (timeoutMs : Nat)
  | goto (url : String) (timeoutMs : Nat)
  | sleepSec (seconds : Nat)
  | assertAll (expectations : List (String × Nat))
deriving DecidableEq

/-- One statement group of a script: the page reference it reads, the
`page.wait_for_timeout(...)` settle delay issued immediately before the
action (if any), and the action itself. -/
structure ScriptStep where
  pageRef : PageRef
  settleBeforeMs : Option Nat
  action : Action
deriving DecidableEq

/-- Abbreviation for a transcribed statement group. -/
def step (r : PageRef) (settle : Option Nat) (a : Action) : ScriptStep :=
  { pageRef := r, settleBeforeMs := settle, action := a }

/-- The step sequence of
`TC001_LinkedIn_OAuth_Connection_and_Profile_Import_Success.py`
(lines 48-107), one entry per statement group of the source. -/
def tc001Steps : List ScriptStep := [
  step PageRef.lastPage (some 3000)
    (Action.fill ("html/body/div/div/div/div[2]/form/div/input") 0
      ("test1@jobmatch.ai")),
  step PageRef.lastPage (some 3000)
    (Action.fill ("html/body/div/div/div/div[2]/form/div[2]/input") 0
      ("TestPassword123!")),
  step PageRef.lastPage (some 3000)
    (Action.click ("html/body/div/div/div/div[2]/form/button") 0 5000),
  step PageRef.lastPage (some 3000)
    (Action.click
      ("html/body/div/div/main/div/div/div[2]/div/div/div[2]/div[2]/div[2]/a[3]")
      0 5000),
  step PageRef.lastPage (some 3000)
    (Action.click
      ("html/body/main/section/div/section/section[3]/div/div/div[2]/div/div/button")
      0 5000),
  step PageRef.lastPage (some 3000)
    (Action.fill
      ("html/body/div[2]/div[2]/div/section/div/div/form/div/div/div/div/input")
      0 ("test1@jobmatch.ai")),
  step PageRef.lastPage (some 3000)
    (Action.fill
      ("html/body/div[2]/div[2]/div/section/div/div/form/div/div[2]/div/div/input")
      0 ("TestPassword123!")),
  step PageRef.lastPage (some 3000)
    (Action.click
      ("html/body/div[2]/div[2]/div/section/div/div/form/div[2]/button")
      0 5000),
  step PageRef.lastPage none
    (Action.assertAll [(("LinkedIn Import Successful"), 30000)]),
  step PageRef.noPage none (Action.sleepSec 5)]

/-- The step sequence of `TC002_LinkedIn_OAuth_Authentication_Failure.py`
(lines 48-114), one entry per statement group of the source.  Note the
mid-scenario navigation at source line 90: `await page.goto(...)` acts on
the `page` variable bound at session start, not on `context.pages[-1]`. -/
def tc002Steps : List ScriptStep := [
  step PageRef.lastPage (some 3000)
    (Action.click
      ("html/body/div/div/main/div/div/div[2]/div/div/div[2]/div[2]/div[2]/a[3]")
      0 5000),
  step PageRef.lastPage (some 3000)
    (Action.click
      ("html/body/main/section/div/section/section[3]/div/div/div[2]/div/div/button")
      0 5000),
  step PageRef.lastPage (some 3000)
    (Action.fill
      ("html/body/div[2]/div[2]/div/section/div/div/form/div/div/div/div/input")
      0 ("invalid_email@example.com")),
  step PageRef.lastPage (some 3000)
    (Action.fill
      ("html/body/div[2]/div[2]/div/section/div/div/form/div/div[2]/div/div/input")
      0 ("wrongpassword")),
  step PageRef.lastPage (some 3000)
    (Action.click
      ("html/body/div[2]/div[2]/div/section/div/div/form/div[2]/button")
      0 5000),
  step PageRef.lastPage (some 3000)
    (Action.click ("html/body/div/header/a") 0 5000),
  step PageRef.cachedPage none
    (Action.goto ("http://localhost:5173") 10000),
  step PageRef.noPage none (Action.sleepSec 3),
  step PageRef.lastPage (some 3000)
    (Action.click
      ("html/body/div/div/main/div/div/div[2]/div/div/div[2]/div[2]/div[2]/a[3]")
      0 5000),
  step PageRef.lastPage (some 3000)
    (Action.click ("html/body/div/main/div[2]/button") 0 5000),
  step PageRef.lastPage none
    (Action.assertAll [(("LinkedIn authentication succeeded"), 1000)]),
  step PageRef.noPage none (Action.sleepSec 5)]

/-- The step sequence of `TC010_User_Account_Management_and_Security.py`
(lines 48-151), one entry per statement group of the source; the terminal
assertion block is one step listing its twelve expected texts. -/
def tc010Steps : List ScriptStep := [
  step PageRef.lastPage (some 3000)
    (Action.click ("html/body/div/div/aside/nav/ul/li[5]/button") 0 5000),
  step PageRef.lastPage (some 3000)
    (Action.click
      ("html/body/div/div/main/div/div[2]/div/div[2]/div[2]/div/div[2]/div[4]/button")
      0 5000),
  step PageRef.lastPage (some 3000)
    (Action.fill
      ("html/body/div/div/main/div/div[2]/div/div[2]/div[2]/div/div[2]/div/input")
      0 ("Sarah M. Mitchell")),
  step PageRef.lastPage (some 3000)
    (Action.fill
      ("html/body/div/div/main/div/div[2]/div/div[2]/div[2]/div/div[2]/div[2]/div/input")
      0 ("sarah.m.mitchell@email.com")),
  step PageRef.lastPage (some 3000)
    (Action.fill
      ("html/body/div/div/main/div/div[2]/div/div[2]/div[2]/div/div[2]/div[3]/input")
      0 ("+1 (555) 987-6543")),
  step PageRef.lastPage (some 3000)
    (Action.click
      ("html/body/div/div/main/div/div[2]/div/div[2]/div[2]/div/div[2]/div[4]/button")
      0 5000),
  step PageRef.lastPage (some 3000)
    (Action.click
      ("html/body/div/div/main/div/div[2]/div/div[2]/div/div/button[2]") 0 5000),
  step PageRef.lastPage (some 3000)
    (Action.click
      ("html/body/div/div/main/div/div[2]/div/div[2]/div[2]/div/div/div/div/button")
      0 5000),
  step PageRef.lastPage (some 3000)
    (Action.click
      ("html/body/div/div/main/div/div[2]/div/div[2]/div/div/button[3]") 0 5000),
  step PageRef.lastPage (some 3000)
    (Action.click ("html/body/div/div/aside/nav/ul/li[6]/button") 0 5000),
  step PageRef.lastPage (some 3000)
    (Action.click
      ("html/body/div/div/main/div/div[2]/div/div[2]/div/div/button[4]") 0 5000),
  step PageRef.lastPage (some 3000)
    (Action.click
      ("html/body/div/div/main/div/div[2]/div/div[2]/div/div/button[4]") 0 5000),
  step PageRef.lastPage (some 3000)
    (Action.click
      ("html/body/div/div/main/div/div[2]/div/div[2]/div[2]/div/div/div/div/button")
      0 5000),
  step PageRef.lastPage none
    (Action.assertAll [
      (("Account Settings"), 30000),
      (("Manage your profile, security, and preferences"), 30000),
      (("Profile"), 30000),
      (("Security"), 30000),
      (("Notifications"), 30000),
      (("Privacy"), 30000),
      (("Sarah Mitchell"), 30000),
      (("sarah.mitchell@email.com"), 30000),
      (("Full Name"), 30000),
      (("Email Address"), 30000),
      (("Verified"), 30000),
      (("Phone Number (Optional)"), 30000)]),
  step PageRef.noPage none (Action.sleepSec 5)]

/-- The failures a single statement of a script can raise: locator
resolution failures, an action timeout, or the terminal assertion not
becoming visible in time. -/
inductive StepFailure where
  | elementNotFound
  | ambiguousIndex
  | actionTimeout
  | assertionFailed
deriving DecidableEq

/-- Result of one scenario: passed, or failed at the statement of the
given index with the given failure. -/
inductive ScenarioResult where
  | passed
  | failedAt (k : Nat) (e : StepFailure)
deriving DecidableEq

/-- Straight-line execution of a script's statement groups, indexed from
`k`: the statements of `run_test` run in textual order inside one `try`
block, so an exception raised by statement `k` (modelled by the
environment `env`, which says whether the external browser makes
statement `k` raise) propagates at once — no later statement runs and no
statement is re-executed.  Returns the indices of the statements that
ran, in order, together with the scenario result. -/
def runSteps (env : Nat → Option StepFailure) :
    Nat → List ScriptStep → List Nat × ScenarioResult
  | _, [] => ([], ScenarioResult.passed)
  | k, _ :: rest =>
    match env k with
    | some e => ([k], ScenarioResult.failedAt k e)
    | none =>
      match runSteps env (k + 1) rest with
      | (ran, r) => (k :: ran, r)

theorem runSteps_failedAt (env : Nat → Option StepFailure) :
    ∀ (steps : List ScriptStep) (k j : Nat) (e : StepFailure),
      (runSteps env k steps).2 = ScenarioResult.failedAt j e →
      (runSteps env k steps).1 = List.range' k (j + 1 - k) ∧
      k ≤ j ∧ j < k + steps.length ∧ env j = some e ∧
      ∀ i, k ≤ i → i < j → env i = none := by
  intro steps
  induction steps with
  | nil =>
    intro k j e h
    simp [runSteps] at h
  | cons s rest ih =>
    intro k j e h
    cases henv : env k with
    | some e0 =>
      rw [show runSteps env k (s :: rest) = ([k], ScenarioResult.failedAt k e0)
          from by simp [runSteps, henv]] at h ⊢
      simp only at h
      obtain ⟨hk, he⟩ := ScenarioResult.failedAt.inj h
      subst hk; subst he
      refine ⟨?_, le_refl k, by simp, henv, ?_⟩
      · simp
      · intro i h1 h2; omega
    | none =>
      rcases hrs : runSteps env (k + 1) rest with ⟨ran, r⟩
      rw [show runSteps env k (s :: rest) = (k :: ran, r)
          from by simp [runSteps, henv, hrs]] at h ⊢
      simp only at h
      obtain ⟨h1, h2, h3, h4, h5⟩ := ih (k + 1) j e (by rw [hrs]; exact h)
      rw [hrs] at h1
      simp only at h1
      refine ⟨?_, by omega, by simp at h3 ⊢; omega, h4, ?_⟩
      · have : j + 1 - k = (j + 1 - (k + 1)) + 1 := by omega
        rw [this, List.range'_succ, ← h1]
      · intro i hki hij
        rcases Nat.eq_or_lt_of_le hki with hik | hik
        · rw [← hik]; exact henv
        · exact h5 i hik hij

/-- C3: steps execute strictly in their declared textual order and a
failure at statement `j` immediately fails the scenario: the statements
that ran are exactly `0, 1, …, j` (each once, in order, with no retry),
the environment made statement `j` raise, every earlier statement ran
without raising, and nothing after `j` was attempted. -/
theorem steps_ordered_and_failure_stops
    (env : Nat → Option StepFailure) (steps : List ScriptStep)
    (j : Nat) (e : StepFailure)
    (hfail : (runSteps env 0 steps).2 = ScenarioResult.failedAt j e) :
    (runSteps env 0 steps).1 = List.range (j + 1) ∧
    j < steps.length ∧ env j = some e ∧ ∀ i, i < j → env i = none := by
  obtain ⟨h1, _, h3, h4, h5⟩ := runSteps_failedAt env steps 0 j e hfail
  refine ⟨?_, by omega, h4, fun i hi => h5 i (Nat.zero_le i) hi⟩
  rw [h1, List.range_eq_range']
  simp

/-- Environment for the C3 witness: statement 1 raises
`ElementNotFound`, everything else succeeds — the unresolvable locator at
step 2 of the spec's own test sketch. -/
def failAtOneEnv : Nat → Option StepFailure :=
  fun i => if i = 1 then some StepFailure.elementNotFound else none

/-- C3 witness: running TC001 under `failAtOneEnv` executes exactly
statements 0 and 1 and statement 1 is within the script. -/
theorem steps_ordered_and_failure_stops_witness :
    (runSteps failAtOneEnv 0 tc001Steps).1 = List.range 2 ∧
    1 < tc001Steps.length :=
  ⟨(steps_ordered_and_failure_stops failAtOneEnv tc001Steps 1
      StepFailure.elementNotFound (by decide)).1,
   (steps_ordered_and_failure_stops failAtOneEnv tc001Steps 1
      StepFailure.elementNotFound (by decide)).2.1⟩

/-- Predicate: the statement reads its frame from `context.pages[-1]`. -/
def usesLastPage : ScriptStep → Bool :=
  fun s =>
    match s.pageRef with
    | PageRef.lastPage => true
    | _ => false

/-- Predicate: the action is a locator-addressed interaction (fill,
click, or the terminal assertion). -/
def locatorAddressed : Action → Bool
  | Action.fill _ _ _ => true
  | Action.click _ _ _ => true
  | Action.assertAll _ => true
  | _ => false

/-- Predicate: the action is a Fill or a Click. -/
def fillOrClick : Action → Bool
  | Action.fill _ _ _ => true
  | Action.click _ _ _ => true
  | _ => false

/-- C5 counterexample: not every step re-resolves its page from
`context.pages[-1]` — the navigation step at index 6 of TC002 (source
line 90) acts on the `page` handle cached at session start. -/
theorem tc002_goto_acts_on_cached_page :
    (tc002Steps.get? 6).map ScriptStep.pageRef = some PageRef.cachedPage ∧
    tc002Steps.all usesLastPage = false := by
  decide

/-- C5 amended: every locator-addressed step (fill, click, terminal
assertion) of the transcribed scripts re-resolves its frame from
`context.pages[-1]` immediately before the step; only the direct page
operations — the mid-scenario `goto` of TC002 and the settle waits — use
the page handle cached at session start. -/
theorem locator_steps_resolve_last_page
    (s : ScriptStep)
    (hs : s ∈ tc001Steps ++ tc002Steps ++ tc010Steps)
    (ha : locatorAddressed s.action = true) :
    s.pageRef = PageRef.lastPage := by
  have hall : ∀ t ∈ tc001Steps ++ tc002Steps ++ tc010Steps,
      locatorAddressed t.action = true → t.pageRef = PageRef.lastPage := by
    decide
  exact hall s hs ha

/-- C5 amended witness: the first statement of TC010 is locator-addressed
and resolves its page from `context.pages[-1]`. -/
theorem locator_steps_resolve_last_page_witness :
    ScriptStep.pageRef (step PageRef.lastPage (some 3000)
      (Action.click ("html/body/div/div/aside/nav/ul/li[5]/button") 0 5000)) =
      PageRef.lastPage :=
  locator_steps_resolve_last_page _ (by decide) (by decide)

/-- C6: every Fill and every Click step of the transcribed scripts issues
the same fixed settle delay, `page.wait_for_timeout(3000)`, immediately
before dispatching the action to the element. -/
theorem settle_delay_before_fill_and_click
    (s : ScriptStep)
    (hs : s ∈ tc001Steps ++ tc002Steps ++ tc010Steps)
    (ha : fillOrClick s.action = true) :
    s.settleBeforeMs = some 3000 := by
  have hall : ∀ t ∈ tc001Steps ++ tc002Steps ++ tc010Steps,
      fillOrClick t.action = true → t.settleBeforeMs = some 3000 := by
    decide
  exact hall s hs ha

/-- C6 witness: the first statement of TC001 is a Fill and carries the
3000 ms settle delay. -/
theorem settle_delay_before_fill_and_click_witness :
    ScriptStep.settleBeforeMs (step PageRef.lastPage (some 3000)
      (Action.fill ("html/body/div/div/div/div[2]/form/div/input") 0
        ("test1@jobmatch.ai"))) = some 3000 :=
  settle_delay_before_fill_and_click _ (by decide) (by decide)

mutual
/-- A snapshot of a page's frame tree: each frame carries the selector by
which a `frame_locator` chain addresses it, the locator targets currently
present in its own document, and its child frames in document order. -/
inductive FrameTree where
  | node (sel : String) (present : List String) (children : FrameForest)

/-- The children of a frame, in document order. -/
inductive FrameForest where
  | nil
  | cons (c : FrameTree) (rest : FrameForest)
end

/-- Selector of a frame. -/
def FrameTree.sel : FrameTree → String
  | FrameTree.node s _ _ => s

/-- Locator targets present in the frame's own document. -/
def FrameTree.present : FrameTree → List String
  | FrameTree.node _ p _ => p

/-- Child frames of a frame. -/
def FrameTree.children : FrameTree → FrameForest
  | FrameTree.node _ _ cs => cs

mutual
/-- Document-order enumeration of a page's frames: the main document
first, then the frames of each child subtree in order (preorder). -/
def listFrames : FrameTree → List FrameTree
  | FrameTree.node s p cs => FrameTree.node s p cs :: forestFrames cs

/-- Document-order enumeration of the frames of a forest. -/
def forestFrames : FrameForest → List FrameTree
  | FrameForest.nil => []
  | FrameForest.cons c cs => listFrames c ++ forestFrames cs
end

/-- First child of the forest whose selector matches, in document
order — the semantics of one `frame_locator(sel)` hop. -/
def findChild : FrameForest → String → Option FrameTree
  | FrameForest.nil, _ => none
  | FrameForest.cons c cs, s =>
    if c.sel == s then some c else findChild cs s

/-- The frame selection the scripts actually perform: start at the main
document of `context.pages[-1]` and follow the literal chain of
`frame_locator` selectors baked into the statement.  The empty chain is
the bare `frame = context.pages[-1]` of most scripts; TC015 bakes in
fixed two-deep chains for the CAPTCHA iframes (lines 101-105).  No
locator probe is involved: the selection is independent of where the
target element lives. -/
def resolveFrameChain : FrameTree → List String → Option FrameTree
  | f, [] => some f
  | f, s :: rest =>
    match findChild f.children s with
    | some c => resolveFrameChain c rest
    | none => none

/-- Modelled from the spec: `findFrameContaining` (§4.2) is implemented
nowhere in the repository — the scripts never scan frames.  This
definition follows the spec's words: iterate the frames in document order
and return the first frame whose existence probe for the locator
succeeds; `none` is the `ElementNotFound` outcome after scanning all
frames once. -/
def findFrameContainingSpec (page : FrameTree) (loc : String) :
    Option FrameTree :=
  (listFrames page).find? fun f => f.present.contains loc

/-- Concrete page for the C4 counterexample: the main document holds only
a login button, while a dynamically injected challenge frame holds the
CAPTCHA checkbox the locator targets. -/
def cexPage : FrameTree :=
  FrameTree.node ("main") [("login-button")]
    (FrameForest.cons
      (FrameTree.node ("challenge") [("captcha-box")] FrameForest.nil)
      FrameForest.nil)

/-- C4 counterexample: at `cexPage` the scripts' frame selection with the
empty chain (the bare `context.pages[-1]` used by every step of
TC001/TC002/TC010) returns the main document, whose probe for the
locator fails, even though the document-order scan described by the spec
finds the challenge frame — so the scripts' frame resolution does not
iterate frames and does not return the first frame whose probe
succeeds. -/
theorem frame_selection_is_not_a_scan :
    resolveFrameChain cexPage [] = some cexPage ∧
    (FrameTree.present cexPage).contains ("captcha-box") = false ∧
    findFrameContainingSpec cexPage ("captcha-box") =
      some (FrameTree.node ("challenge") [("captcha-box")] FrameForest.nil) :=
  ⟨rfl, rfl, rfl⟩

theorem findChild_frames_subset (s : String) :
    ∀ (cs : FrameForest) (c : FrameTree), findChild cs s = some c →
      ∀ g, g ∈ listFrames c → g ∈ forestFrames cs
  | FrameForest.nil, c, h => by simp [findChild] at h
  | FrameForest.cons c0 cs, c, h => by
    intro g hg
    by_cases hs : c0.sel == s
    · simp [findChild, hs] at h
      subst h
      simp [forestFrames]
      exact Or.inl hg
    · simp [findChild, hs] at h
      simp [forestFrames]
      exact Or.inr (findChild_frames_subset s cs c h g hg)

/-- C4 amended: the scripts select a frame by literally following the
chain of `frame_locator` selectors from the main document of the last
page, with no locator probe; whenever the chain resolves, the resulting
frame is one of the page's frames in the document-order enumeration
(possibly one whose probe for the target locator fails, as the
counterexample shows). -/
theorem chain_resolved_frame_in_document_order
    (chain : List String) :
    ∀ (f g : FrameTree), resolveFrameChain f chain = some g →
      g ∈ listFrames f := by
  induction chain with
  | nil =>
    intro f g h
    simp [resolveFrameChain] at h
    subst h
    cases f
    simp [listFrames]
  | cons s rest ih =>
    intro f g h
    simp only [resolveFrameChain] at h
    cases hc : findChild f.children s with
    | none => rw [hc] at h; simp at h
    | some c =>
      rw [hc] at h
      have hg : g ∈ listFrames c := ih c g h
      cases f with
      | node s0 p0 cs0 =>
        simp [listFrames]
        exact Or.inr (findChild_frames_subset s cs0 c hc g hg)

/-- C4 amended witness: on `cexPage` the chain with the single selector
of the challenge frame resolves, and the resolved frame is in the
document-order frame list. -/
theorem chain_resolved_frame_in_document_order_witness :
    FrameTree.node ("challenge") [("captcha-box")] FrameForest.nil ∈
      listFrames cexPage :=
  chain_resolved_frame_in_document_order [("challenge")] cexPage
    (FrameTree.node ("challenge") [("captcha-box")] FrameForest.nil) rfl

/-- Outcome of the terminal assertion: passed, or failed with a
diagnostic reason naming the unmet expectation. -/
inductive AssertOutcome where
  | passed
  | failed (reason : String)
deriving DecidableEq

/-- Poll loop core: starting at time `t`, probe the predicate; stop at
the first probe that succeeds, or at the first probe not earlier than the
timeout; otherwise wait one interval and probe again.  Returns the
stopping time; the fuel is chosen large enough that it never runs out
when the interval is positive. -/
def pollStop (pred : Nat → Bool) (timeoutMs intervalMs : Nat) :
    Nat → Nat → Nat
  | 0, t => t
  | Nat.succ fuel, t =>
    if pred t then t
    else if timeoutMs ≤ t then t
    else pollStop pred timeoutMs intervalMs fuel (t + intervalMs)

/-- Modelled from the spec: the polling wait behind
`expect(frame.locator(text).first).to_be_visible(timeout=T)` is
implemented inside the external browser-automation library, not in this
repository; §4.6 specifies it as repeatedly probing for the predicate at
a bounded interval until it succeeds (Passed) or the timeout elapses
(Failed with a diagnostic reason naming the unmet expectation). -/
def awaitVisible (pred : Nat → Bool) (expectation : String)
    (timeoutMs intervalMs : Nat) : AssertOutcome × Nat :=
  match pollStop pred timeoutMs intervalMs (timeoutMs + 1) 0 with
  | t =>
    (if pred t then AssertOutcome.passed
     else AssertOutcome.failed expectation, t)

theorem pollStop_of_reached (pred : Nat → Bool) (timeoutMs intervalMs : Nat)
    (fuel t : Nat) (hp : pred t = false) (ht : timeoutMs ≤ t) :
    pollStop pred timeoutMs intervalMs fuel t = t := by
  cases fuel with
  | zero => rfl
  | succ fuel => simp [pollStop, hp, ht]

theorem pollStop_bounds (pred : Nat → Bool) (timeoutMs intervalMs : Nat)
    (hnever : ∀ u, pred u = false) :
    ∀ (fuel t : Nat), t ≤ timeoutMs → timeoutMs ≤ t + fuel * intervalMs →
      timeoutMs ≤ pollStop pred timeoutMs intervalMs fuel t ∧
      pollStop pred timeoutMs intervalMs fuel t ≤ timeoutMs + intervalMs := by
  intro fuel
  induction fuel with
  | zero =>
    intro t h1 h2
    have : t = timeoutMs := by omega
    subst this
    exact ⟨le_refl _, Nat.le_add_right _ _⟩
  | succ fuel ih =>
    intro t h1 h2
    simp only [pollStop, hnever t, Bool.false_eq_true, if_false]
    by_cases hreach : timeoutMs ≤ t
    · have : t = timeoutMs := by omega
      subst this
      simp
    · simp only [if_neg hreach]
      by_cases hnext : t + intervalMs ≤ timeoutMs
      · exact ih (t + intervalMs) hnext (by
          have hsm : (fuel + 1) * intervalMs =
              fuel * intervalMs + intervalMs := by ring
          omega)
      · rw [pollStop_of_reached pred timeoutMs intervalMs fuel
          (t + intervalMs) (hnever _) (by omega)]
        omega

/-- C7: for a predicate that never becomes true, `awaitVisible` with
timeout `T` and a positive poll interval returns Failed with the
diagnostic reason naming the unmet expectation, and its stopping time is
no earlier than `T` and no later than `T` plus one poll interval. -/
theorem awaitVisible_timeout_bounds (pred : Nat → Bool)
    (expectation : String) (timeoutMs intervalMs : Nat)
    (hnever : ∀ u, pred u = false) (hi : 0 < intervalMs) :
    (awaitVisible pred expectation timeoutMs intervalMs).1 =
      AssertOutcome.failed expectation ∧
    timeoutMs ≤ (awaitVisible pred expectation timeoutMs intervalMs).2 ∧
    (awaitVisible pred expectation timeoutMs intervalMs).2 ≤
      timeoutMs + intervalMs := by
  have hb := pollStop_bounds pred timeoutMs intervalMs hnever
    (timeoutMs + 1) 0 (Nat.zero_le _)
    (by have : timeoutMs + 1 ≤ (timeoutMs + 1) * intervalMs :=
          Nat.le_mul_of_pos_right _ hi
        omega)
  refine ⟨?_, ?_, ?_⟩
  · simp [awaitVisible, hnever]
  · simpa [awaitVisible] using hb.1
  · simpa [awaitVisible] using hb.2

/-- Predicate for the C7 witness: the expected text never becomes
visible. -/
def neverVisible : Nat → Bool := fun _ => false

/-- C7 witness: with the TC002-style timeout of 1000 ms and a 100 ms
poll interval, the checker fails with the named expectation and stops
within the bounds. -/
theorem awaitVisible_timeout_bounds_witness :
    (awaitVisible neverVisible ("LinkedIn authentication succeeded")
      1000 100).1 =
      AssertOutcome.failed ("LinkedIn authentication succeeded") ∧
    1000 ≤ (awaitVisible neverVisible ("LinkedIn authentication succeeded")
      1000 100).2 ∧
    (awaitVisible neverVisible ("LinkedIn authentication succeeded")
      1000 100).2 ≤ 1100 :=
  awaitVisible_timeout_bounds neverVisible
    ("LinkedIn authentication succeeded") 1000 100 (fun _ => rfl)
    (by decide)

/-- Handles allocated for one scenario run.  Allocation of fresh OS and
library objects (`async_playwright().start()`, `chromium.launch(...)`,
`browser.new_context()`) is modelled by a monotone counter: each call
returns the next unused identifier, so distinct calls never return the
same object. -/
structure Session where
  driverId : Nat
  browserId : Nat
  contextId : Nat
deriving DecidableEq

/-- One `open`: the three acquisition calls at the top of `run_test`
allocate three fresh objects and advance the allocator. -/
def openSession (counter : Nat) : Session × Nat :=
  ({ driverId := counter, browserId := counter + 1,
     contextId := counter + 2 }, counter + 3)

/-- A batch of `n` scenario runs: each run calls `run_test`, which opens
a fresh session at scenario start and closes it at scenario end; the
scripts keep `pw`, `browser`, `context` as locals of `run_test`, so no
session object flows from one run to the next. -/
def runBatch : Nat → Nat → List Session
  | 0, _ => []
  | Nat.succ n, counter =>
    match openSession counter with
    | (s, counter2) => s :: runBatch n counter2

theorem runBatch_length (n : Nat) :
    ∀ counter, (runBatch n counter).length = n := by
  induction n with
  | zero => intro c; rfl
  | succ n ih => intro c; simp [runBatch, openSession, ih]

theorem runBatch_get (n : Nat) :
    ∀ (counter k : Nat), k < n →
      (runBatch n counter).get? k =
        some (openSession (counter + 3 * k)).1 := by
  induction n with
  | zero => intro counter k hk; omega
  | succ n ih =>
    intro counter k hk
    cases k with
    | zero => simp [runBatch, openSession]
    | succ k =>
      have h := ih (counter + 3) k (by omega)
      have harith : counter + 3 + 3 * k = counter + 3 * (k + 1) := by ring
      rw [harith] at h
      simpa [runBatch, openSession] using h

/-- C8: any two distinct scenario runs of a batch own disjoint sessions:
their driver processes, browser processes, and browsing contexts are
pairwise different objects, so no context (and hence no cookie or storage
state) is shared between two runs. -/
theorem sessions_fully_isolated (n counter i j : Nat) (hij : i ≠ j)
    (si sj : Session)
    (hi : (runBatch n counter).get? i = some si)
    (hj : (runBatch n counter).get? j = some sj) :
    si.driverId ≠ sj.driverId ∧ si.browserId ≠ sj.browserId ∧
    si.contextId ≠ sj.contextId := by
  have hin : i < n := by
    by_contra hx
    rw [List.get?_eq_none.mpr (by rw [runBatch_length n counter]; omega)]
      at hi
    exact Option.noConfusion hi
  have hjn : j < n := by
    by_contra hx
    rw [List.get?_eq_none.mpr (by rw [runBatch_length n counter]; omega)]
      at hj
    exact Option.noConfusion hj
  rw [runBatch_get n counter i hin] at hi
  rw [runBatch_get n counter j hjn] at hj
  have hsi := Option.some.inj hi
  have hsj := Option.some.inj hj
  subst hsi; subst hsj
  simp only [openSession]
  refine ⟨?_, ?_, ?_⟩ <;> intro heq <;> omega

/-- C8 witness: in a batch of two runs starting from a fresh allocator,
the two sessions share no handle. -/
theorem sessions_fully_isolated_witness :
    ({ driverId := 0, browserId := 1, contextId := 2 } : Session).driverId ≠
      ({ driverId := 3, browserId := 4, contextId := 5 } : Session).driverId ∧
    ({ driverId := 0, browserId := 1, contextId := 2 } : Session).browserId ≠
      ({ driverId := 3, browserId := 4, contextId := 5 } : Session).browserId ∧
    ({ driverId := 0, browserId := 1, contextId := 2 } : Session).contextId ≠
      ({ driverId := 3, browserId := 4, contextId := 5 } : Session).contextId :=
  sessions_fully_isolated 2 0 0 1 (by decide)
    { driverId := 0, browserId := 1, contextId := 2 }
    { driverId := 3, browserId := 4, contextId := 5 }
    (by decide) (by decide)

end JobmatchTests
